import Mathlib

/-!
Verification development for the OpenBSD `sensorsd` threshold-watch engine
(`usr.sbin/sensorsd/sensorsd.c`, rev 1.26).

The C source is embedded shallowly: the per-sensor record `struct limits_t`
becomes the structure `Limits`; the hysteresis state machine in
`check_sensors` becomes `deriveStatus`/`debounce`/`checkSensor`; the value
formatter `print_sensor`, the threshold parser `get_val`, the config loader
`parse_config` and the reporting/templating pass `report` become Lean
functions of the same names.  Machine `int64_t` values are modelled as `Int`
(the C code never overflows them on the inputs considered); `time_t` is an
`Int` parameter threaded to the functions that call `time(NULL)`; process
termination via `err`/`errx` is modelled by `Except.error`.  C `double`
arithmetic in `get_val` is modelled by exact scaled-integer arithmetic
followed by truncation toward zero (the double→int64 conversion); on the
concrete inputs appearing in the theorems below the double computation is
exact, so the exact model agrees with it.
-/

deriving instance DecidableEq for Except

/-- The five sensor status values of `enum sensor_status` from
`<sys/sensors.h>`, in declaration order: `SENSOR_S_UNSPEC`, `SENSOR_S_OK`,
`SENSOR_S_WARN`, `SENSOR_S_CRIT`, `SENSOR_S_UNKNOWN`. -/
inductive SensorStatus
  | unspec
  | ok
  | warn
  | crit
  | unknown
deriving DecidableEq, Repr

/-- The sensor types of `enum sensor_type` from `<sys/sensors.h>` (2006
vintage, the one this `sensorsd.c` compiles against). -/
inductive SensorType
  | temp
  | fanrpm
  | volts_dc
  | amps
  | watthour
  | amphour
  | indicator
  | integer
  | percent
  | lux
  | drive
  | timedelta
deriving DecidableEq, Repr

/-- The type-name table `sensor_type_s` from `<sys/sensors.h>` (not under
`src/`; names as in the OpenBSD header). -/
def sensor_type_s : SensorType → String
  | SensorType.temp => "temp"
  | SensorType.fanrpm => "fan"
  | SensorType.volts_dc => "volt"
  | SensorType.amps => "amps"
  | SensorType.watthour => "watthour"
  | SensorType.amphour => "amphour"
  | SensorType.indicator => "indicator"
  | SensorType.integer => "raw"
  | SensorType.percent => "percent"
  | SensorType.lux => "illuminance"
  | SensorType.drive => "drive"
  | SensorType.timedelta => "timedelta"

/-- `LLONG_MAX`, the default upper bound when no "high" field is configured. -/
def LLONG_MAX : Int := 9223372036854775807

/-- `LLONG_MIN`, the default lower bound when no "low" field is configured. -/
def LLONG_MIN : Int := -9223372036854775808

/-- `struct limits_t`: one watch-list entry.  `status` is the confirmed
(debounced) status, `status2` the pending candidate, `count` the pending
streak counter, `watch` the enabled flag. -/
structure Limits where
  dxname : String
  dev : Int
  type : SensorType
  numt : Int
  last_val : Int
  lower : Int
  upper : Int
  command : Option String
  status_changed : Int
  status : SensorStatus
  status2 : SensorStatus
  count : Int
  watch : Bool
deriving DecidableEq, Repr

/-- Candidate-status derivation at the top of the `check_sensors` loop body:
`SENSOR_S_UNKNOWN` is degraded to `WARN`; for `SENSOR_S_UNSPEC` the status is
derived from the configured bounds by strict comparisons
(`sensor.value > limit->upper || sensor.value < limit->lower`); any other
device-reported status is used directly. -/
def deriveStatus (l : Limits) (value : Int) (st : SensorStatus) : SensorStatus :=
  match st with
  | SensorStatus.unknown => SensorStatus.warn
  | SensorStatus.unspec =>
      if value > l.upper ∨ value < l.lower then SensorStatus.crit
      else SensorStatus.ok
  | s => s

/-- The debounce block of `check_sensors` (the `if (limit->status != newstatus)`
cascade): an `OK` candidate confirms immediately; a candidate differing from
the pending `status2` starts a new streak with `count = 0`; a repeat of the
pending candidate does `++limit->count` and confirms once that preincremented
counter reaches 3.  `t` stands for the `time(NULL)` stamped on confirmation. -/
def debounce (l : Limits) (newstatus : SensorStatus) (t : Int) : Limits :=
  if l.status ≠ newstatus then
    if newstatus = SensorStatus.ok then
      { l with status2 := newstatus, status := newstatus, status_changed := t }
    else if l.status2 ≠ newstatus then
      { l with status2 := newstatus, count := 0 }
    else if l.count + 1 ≥ 3 then
      { l with count := l.count + 1, status2 := newstatus,
               status := newstatus, status_changed := t }
    else
      { l with count := l.count + 1 }
  else l

/-- The body of the `TAILQ_FOREACH` loop in `check_sensors` for one limit:
skipped entirely unless `limit->watch`; otherwise `last_val` is overwritten
with the fresh reading and the debounce cascade runs on the derived
candidate status. -/
def checkSensor (l : Limits) (value : Int) (st : SensorStatus) (t : Int) : Limits :=
  if l.watch = true then
    debounce { l with last_val := value }
      (deriveStatus { l with last_val := value } value st) t
  else l

/-- One whole `check_sensors` pass: every limit is run through `checkSensor`
on the reading delivered by the sampling capability (the `sysctl` calls of
the C code, modelled as a function from the entry to a reading). -/
def check_sensors (sample : Limits → Int × SensorStatus) (t : Int)
    (ls : List Limits) : List Limits :=
  ls.map (fun l => checkSensor l (sample l).1 (sample l).2 t)

/-- `RFBUFSIZ`, the `print_sensor` ring-buffer slot size (28): `snprintf`
keeps at most 27 characters. -/
def RFBUFSIZ : Nat := 28

/-- Two-digit zero padding for the fractional part of a `%.2f` rendering. -/
def pad2 (n : Nat) : String :=
  if n < 10 then "0" ++ toString n else toString n

/-- Model of a C `printf` `"%.2f"` rendering of the real number `num / den`
(`den > 0`): the value is rounded to centi-units half-up and printed with
exactly two decimals.  (The C code rounds the `double` to nearest; none of
the values appearing below are ties, so the tie-breaking rule is
invisible.) -/
def fmt2 (num : Int) (den : Int) : String :=
  let centi : Int := Int.ediv (200 * num + den) (2 * den)
  let sign := if centi < 0 then "-" else ""
  let a := centi.natAbs
  sign ++ toString (a / 100) ++ "." ++ pad2 (a % 100)

/-- The `drvstat` table of drive-state names (index 0 of the C array is
`NULL` and unreachable behind the `0 < value` guard, so it is dropped here;
Lean index `i` corresponds to C index `i + 1`). -/
def drvstat : List String :=
  ["empty", "ready", "powerup", "online", "idle", "active",
   "rebuild", "powerdown", "fail", "pfail"]

/-- `print_sensor`: type-dependent rendering of a raw value, truncated to
`RFBUFSIZ - 1` characters as `snprintf` does.  Temperature raw values are
micro-kelvin and the display subtracts the offset 273150000 (273.15 K). -/
def print_sensor (type : SensorType) (value : Int) : String :=
  let s :=
    match type with
    | SensorType.temp => fmt2 (value - 273150000) 1000000 ++ " degC"
    | SensorType.fanrpm => toString value ++ " RPM"
    | SensorType.volts_dc => fmt2 value 1000000 ++ " V DC"
    | SensorType.amps => fmt2 value 1000000 ++ " A"
    | SensorType.indicator => if value = 0 then "Off" else "On"
    | SensorType.integer => toString value ++ " raw"
    | SensorType.percent => fmt2 value 1000 ++ "%"
    | SensorType.lux => fmt2 value 1000000 ++ " lx"
    | SensorType.drive =>
        if 0 < value ∧ value < 11 then
          drvstat.getD (value.toNat - 1) (toString value ++ " ???")
        else toString value ++ " ???"
    | _ => toString value ++ " ???"
  s.take (RFBUFSIZ - 1)

/-- The whitespace characters `strtod` skips before the number. -/
def isSpaceC (c : Char) : Bool :=
  c = ' ' ∨ c = '\t' ∨ c = '\n' ∨ c = '\x0b' ∨ c = '\x0c' ∨ c = '\r'

/-- Accumulate a run of leading decimal digits: returns the accumulated
value, the number of digits consumed and the remaining characters. -/
def takeDigitsAux (acc : Nat) (cnt : Nat) : List Char → Nat × Nat × List Char
  | [] => (acc, cnt, [])
  | c :: cs =>
      if '0' ≤ c ∧ c ≤ '9' then
        takeDigitsAux (10 * acc + (c.toNat - Char.toNat '0')) (cnt + 1) cs
      else (acc, cnt, c :: cs)

/-- Model of the C library `strtod` restricted to the plain decimal forms a
`sensorsd.conf` threshold uses: optional whitespace, optional sign, digits
with an optional fractional part.  The parsed value is returned exactly as
a scaled integer — the triple `(num, scale, rest)` stands for the value
`num / 10 ^ scale` and the unconsumed suffix `rest`.  `none` models "no
conversion performed" (`endptr == nptr`), the condition `get_val` treats as
fatal.  Exponent, hex and inf/nan forms are not modelled (no claim
exercises them). -/
def strtodM (s : List Char) : Option (Int × Nat × List Char) :=
  let s1 := s.dropWhile isSpaceC
  let signAndRest : Bool × List Char :=
    match s1 with
    | '-' :: r => (true, r)
    | '+' :: r => (false, r)
    | r => (false, r)
  let ipRes := takeDigitsAux 0 0 signAndRest.2
  let fpRes : Nat × Nat × List Char :=
    match ipRes.2.2 with
    | '.' :: r => takeDigitsAux 0 0 r
    | r => (0, 0, r)
  if ipRes.2.1 + fpRes.2.1 = 0 then none
  else
    let mag : Int := ((ipRes.1 * 10 ^ fpRes.2.1 + fpRes.1 : Nat) : Int)
    some ((if signAndRest.1 then -mag else mag), fpRes.2.1, fpRes.2.2)

/-- `get_val`: convert an optional threshold string to the internal raw
integer unit of the sensor type.  An absent string returns the default bound
(`LLONG_MAX` for an upper bound, `LLONG_MIN` for a lower one) before any
parsing or type dispatch.  `err`/`errx` process termination is modelled as
`Except.error`.  Note the temperature branch adds the offset 273.16 (the C
literal `273.16`), not the 273.15 used by `print_sensor`.  The C `double`
arithmetic is modelled exactly: with the parsed value `num / den`
(`den = 10 ^ scale`), each branch computes its conversion formula as a
single exact fraction and `Int.tdiv` performs the truncation toward zero of
the final `double` → `int64_t` assignment.  For temperature in Celsius,
`(val + 273.16) * 1000 * 1000 = 1000000 * (100 * num + 27316 * den) / (100 * den)`;
in Fahrenheit, `((val - 32) / 9 * 5 + 273.16) * 1000 * 1000 =
1000000 * (500 * (num - 32 * den) + 245844 * den) / (900 * den)`
(`245844 = 9 * 27316`). -/
def get_val (buf : Option String) (upper : Bool) (type : SensorType) :
    Except String Int :=
  match buf with
  | none => Except.ok (if upper then LLONG_MAX else LLONG_MIN)
  | some s =>
    match strtodM s.data with
    | none => Except.error ("incorrect value: " ++ s)
    | some vp =>
      let num : Int := vp.1
      let den : Int := (10 : Int) ^ vp.2.1
      match type with
      | SensorType.temp =>
          match vp.2.2 with
          | 'C' :: _ =>
              Except.ok (Int.tdiv (1000000 * (100 * num + 27316 * den)) (100 * den))
          | 'F' :: _ =>
              Except.ok (Int.tdiv (1000000 * (500 * (num - 32 * den) + 245844 * den)) (900 * den))
          | _ => Except.error "unknown unit for temp sensor"
      | SensorType.fanrpm => Except.ok (Int.tdiv num den)
      | SensorType.volts_dc =>
          match vp.2.2 with
          | 'V' :: _ => Except.ok (Int.tdiv (1000000 * num) den)
          | _ => Except.error "unknown unit for voltage sensor"
      | SensorType.percent => Except.ok (Int.tdiv (1000 * num) den)
      | SensorType.indicator => Except.ok (Int.tdiv num den)
      | SensorType.integer => Except.ok (Int.tdiv num den)
      | SensorType.drive => Except.ok (Int.tdiv num den)
      | SensorType.lux => Except.ok (Int.tdiv (1000000 * num) den)
      | _ => Except.error "unsupported sensor type"

/-- A `sensorsd.conf` record as surfaced by the `cgetstr` lookups in
`parse_config`: the optional string capabilities "low", "high" and
"command". -/
structure CfgRecord where
  low : Option String
  high : Option String
  command : Option String
deriving DecidableEq, Repr

/-- The canonical config key built by `parse_config`:
`snprintf(node, 24, "hw.sensors.%s.%s%d", ...)`, hence truncated to 23
characters. -/
def nodeKey (p : Limits) : String :=
  ("hw.sensors." ++ p.dxname ++ "." ++ sensor_type_s p.type ++
    toString p.numt).take 23

/-- One iteration of the `parse_config` loop on one watch-list entry.  A
missing record only clears the `watch` flag — every other field (including
the runtime state `last_val`/`status`/`status2`/`count`/`status_changed` and
the old `command`) is left in place.  A present record sets `watch`,
converts "low" and then "high" through `get_val` (whose `errx` death
propagates as `Except.error`), and overwrites `command` only when the record
carries one (the C code only calls `asprintf` when `ebuf` is non-null).
Returns the entry together with its contribution to `watch_cnt`. -/
def loadOne (lookup : String → Option CfgRecord) (p : Limits) :
    Except String (Limits × Nat) :=
  match lookup (nodeKey p) with
  | none => Except.ok ({ p with watch := false }, 0)
  | some r =>
    match get_val r.low false p.type with
    | Except.error e => Except.error e
    | Except.ok lo =>
      match get_val r.high true p.type with
      | Except.error e => Except.error e
      | Except.ok hi =>
        let newcmd : Option String :=
          match r.command with
          | some c => some c
          | none => p.command
        let q : Limits :=
          { p with watch := true, lower := lo, upper := hi,
                   command := newcmd }
        Except.ok (q, 1)

/-- `parse_config`: walk the watch list in order, reloading each entry's
`WatchConfig` from the config lookup and summing `watch_cnt`.  The first
fatal `get_val` error aborts the walk (in C the process dies on the spot). -/
def parse_config (lookup : String → Option CfgRecord) :
    List Limits → Except String (List Limits × Nat)
  | [] => Except.ok ([], 0)
  | p :: rest =>
    match loadOne lookup p with
    | Except.error e => Except.error e
    | Except.ok qw =>
      match parse_config lookup rest with
      | Except.error e => Except.error e
      | Except.ok rc => Except.ok (qw.1 :: rc.1, qw.2 + rc.2)

/-- Outcome of the reload handling at the top of the main loop: either the
process died inside `parse_config` (an `err`/`errx` in `get_val`), or it
continues with the rebuilt watch list.  (`parse_config` can never return the
`-1` the C handler checks for, so the "error in config file" branch of the
reload handler is unreachable.) -/
inductive ReloadOutcome
  | fatal (msg : String)
  | continued (newLimits : List Limits) (watch_cnt : Nat)
deriving DecidableEq, Repr

/-- The reload step of `main`'s loop body (`if (reload) { ... }`). -/
def reloadStep (lookup : String → Option CfgRecord) (ls : List Limits) :
    ReloadOutcome :=
  match parse_config lookup ls with
  | Except.error e => ReloadOutcome.fatal e
  | Except.ok rc => ReloadOutcome.continued rc.1 rc.2

/-- `BUFSIZ`, the size of the command-expansion output buffer in `report`
(1024 on OpenBSD). -/
def BUFSIZ : Nat := 1024

/-- The string a recognized placeholder letter substitutes in `report`'s
template loop; the `default:` branch of the C `switch` renders `%<char>`
for any other letter (including a second `%`). -/
def substField (l : Limits) (c : Char) : String :=
  match c with
  | 'x' => l.dxname
  | 't' => sensor_type_s l.type
  | 'n' => toString l.numt
  | '2' => print_sensor l.type l.last_val
  | '3' => print_sensor l.type l.lower
  | '4' => print_sensor l.type l.upper
  | c => "%" ++ String.mk [c]

/-- Result of the template-expansion loop: `ok` is a NUL-terminated buffer
(normal `break`); `overflow` is the `r >= len - n` bail-out that syslogs
"could not parse command" and returns from `report`; `unterminated` is the
loop running off the end of the buffer on literal characters (`n == len`
with no NUL written — the C code then passes the unterminated buffer to
`execute`, reading past its end). -/
inductive ExpandResult
  | ok (s : String)
  | overflow
  | unterminated (s : String)
deriving DecidableEq, Repr

/-- The command-template expansion loop of `report`, with `n` the output
cursor and `acc` the reversed output buffer contents. -/
def expandLoop (l : Limits) : List Char → Nat → List Char → ExpandResult
  | [], n, acc =>
      if n < BUFSIZ then ExpandResult.ok (String.mk acc.reverse)
      else ExpandResult.unterminated (String.mk acc.reverse)
  | c :: rest, n, acc =>
      if n < BUFSIZ then
        if c = '%' then
          match rest with
          | [] => ExpandResult.ok (String.mk acc.reverse)
          | d :: rest2 =>
            let s := substField l d
            if BUFSIZ - n ≤ s.length then ExpandResult.overflow
            else expandLoop l rest2 (n + s.length) (s.data.reverse ++ acc)
        else expandLoop l rest (n + 1) (c :: acc)
      else ExpandResult.unterminated (String.mk acc.reverse)

/-- Expansion of a whole command template for one limit. -/
def expand (l : Limits) (cmd : String) : ExpandResult :=
  expandLoop l cmd.data 0 []

/-- Observable actions of one `report` pass. -/
inductive Event
  | logLine (line : String)
  | logParseFailure
  | execCmd (cmd : String)
  | execUnterminated (s : String)
deriving DecidableEq, Repr

/-- The alert line `report` syslogs for a limit whose status changed since
the previous report. -/
def reportLine (l : Limits) : String :=
  "hw.sensors." ++ l.dxname ++ "." ++ sensor_type_s l.type ++
    toString l.numt ++ ": " ++
    (if l.status = SensorStatus.ok then "within" else "exceed") ++
    " limits, value: " ++ print_sensor l.type l.last_val

/-- `report(last_report)`: walk the whole watch list (note: with no check of
the `watch` flag), skip entries whose `status_changed` is not newer than the
previous report, log an alert line for the others, and expand-and-execute
their command template if one is set.  A template overflow syslogs the
parse failure and returns from `report`, dropping every remaining entry of
that pass. -/
def report (last_report : Int) : List Limits → List Event
  | [] => []
  | l :: rest =>
    if l.status_changed ≤ last_report then report last_report rest
    else
      Event.logLine (reportLine l) ::
      (match l.command with
       | none => report last_report rest
       | some cmd =>
         match expand l cmd with
         | ExpandResult.overflow => [Event.logParseFailure]
         | ExpandResult.ok s =>
             (if s = "" then [] else [Event.execCmd s]) ++ report last_report rest
         | ExpandResult.unterminated s =>
             Event.execUnterminated s :: report last_report rest)

/-- A concrete watched temperature sensor entry used by the concrete
instances below: confirmed and pending status `OK`, streak counter 0, last
confirmed change at time 5, bounds 1 and 5. -/
def baseLimit : Limits :=
  { dxname := "cpu0", dev := 0, type := SensorType.temp, numt := 0,
    last_val := 298160000, lower := 1, upper := 5, command := none,
    status_changed := 5, status := SensorStatus.ok,
    status2 := SensorStatus.ok, count := 0, watch := true }

/-- A contradictory configuration (`lower > upper`), explicitly accepted by
the engine. -/
def crossedLimit : Limits := { baseLimit with lower := 10, upper := 5 }

/-- A sensor sitting in a confirmed `CRIT` state. -/
def recoveryStart : Limits :=
  { baseLimit with status := SensorStatus.crit, status2 := SensorStatus.crit,
                   count := 3 }

/-- A config record whose "low" threshold string parses no number at all. -/
def badRecord : CfgRecord := { low := some "bogus", high := none, command := none }

/-- A config record whose "low" threshold string carries a unit suffix that
is invalid for a temperature sensor (only 'C' and 'F' are accepted). -/
def unitRecord : CfgRecord := { low := some "25K", high := none, command := none }

/-- A command template of 1015 literal characters followed by a `%2`
substitution: the substituted value no longer fits the remaining 9 bytes of
the 1024-byte buffer, so expansion overflows. -/
def overflowCmd : String := String.mk (List.replicate 1015 'a' ++ ['%', '2'])

/-- `baseLimit` with the overflowing command template attached. -/
def overflowLimit : Limits := { baseLimit with command := some overflowCmd }

/-- A second watch-list entry with a pending transition of its own. -/
def fanLimit : Limits :=
  { baseLimit with dxname := "fan0", type := SensorType.fanrpm, last_val := 7000 }

/-- A sensor in the middle of a pending `CRIT` streak (`status2 = CRIT`,
`count = 2`). -/
def streakLimit : Limits :=
  { baseLimit with status2 := SensorStatus.crit, count := 2 }

/-- `baseLimit` with the watch flag disabled. -/
def unwatchedLimit : Limits := { baseLimit with watch := false }

/-- A disabled sensor that still carries a command template and a recent
`status_changed` stamp. -/
def unwatchedCmdLimit : Limits :=
  { baseLimit with watch := false, command := some "echo ALERT" }

/-- The runtime `WatchState` fields of an entry (everything `parse_config`
does not rebuild): last observed value, confirmed status, pending status,
pending streak and change timestamp. -/
def sameState (p q : Limits) : Prop :=
  q.last_val = p.last_val ∧ q.status = p.status ∧ q.status2 = p.status2 ∧
  q.count = p.count ∧ q.status_changed = p.status_changed

set_option maxRecDepth 8000

/-- An `OK` candidate differing from the confirmed status confirms
immediately (first branch of the debounce cascade). -/
theorem debounce_ok_confirm (l : Limits) (t : Int)
    (h : l.status ≠ SensorStatus.ok) :
    debounce l SensorStatus.ok t =
      { l with status2 := SensorStatus.ok, status := SensorStatus.ok,
               status_changed := t } := by
  unfold debounce
  rw [if_pos h, if_pos rfl]

/-- A non-`OK` candidate differing from both confirmed and pending status
starts a new streak with the counter reset (second branch). -/
theorem debounce_newstreak (l : Limits) (c : SensorStatus) (t : Int)
    (h1 : l.status ≠ c) (h2 : c ≠ SensorStatus.ok) (h3 : l.status2 ≠ c) :
    debounce l c t = { l with status2 := c, count := 0 } := by
  unfold debounce
  rw [if_pos h1, if_neg h2, if_pos h3]

/-- A repeat of the pending candidate whose preincremented counter is still
below 3 only bumps the counter (third branch, not yet confirming). -/
theorem debounce_repeat_noconfirm (l : Limits) (c : SensorStatus) (t : Int)
    (h1 : l.status ≠ c) (h2 : c ≠ SensorStatus.ok) (h3 : l.status2 = c)
    (h4 : l.count + 1 < 3) :
    debounce l c t = { l with count := l.count + 1 } := by
  unfold debounce
  rw [if_pos h1, if_neg h2, if_neg (by simp [h3]), if_neg (by omega)]

/-- A repeat of the pending candidate whose preincremented counter reaches 3
confirms it (third branch, confirming). -/
theorem debounce_repeat_confirm (l : Limits) (c : SensorStatus) (t : Int)
    (h1 : l.status ≠ c) (h2 : c ≠ SensorStatus.ok) (h3 : l.status2 = c)
    (h4 : l.count + 1 ≥ 3) :
    debounce l c t =
      { l with count := l.count + 1, status2 := c, status := c,
               status_changed := t } := by
  unfold debounce
  rw [if_pos h1, if_neg h2, if_neg (by simp [h3]), if_pos h4]

/-- `loadOne` never touches the runtime state fields of an entry, whether
the record is present or absent. -/
theorem loadOne_state (lookup : String → Option CfgRecord) (p q : Limits)
    (w : Nat) (h : loadOne lookup p = Except.ok (q, w)) : sameState p q := by
  unfold loadOne at h
  split at h
  · simp only [Except.ok.injEq, Prod.mk.injEq] at h
    obtain ⟨h1, h2⟩ := h
    subst h1
    exact ⟨rfl, rfl, rfl, rfl, rfl⟩
  · split at h
    · simp at h
    · split at h
      · simp at h
      · simp only [Except.ok.injEq, Prod.mk.injEq] at h
        obtain ⟨h1, h2⟩ := h
        subst h1
        exact ⟨rfl, rfl, rfl, rfl, rfl⟩

/-- When the config lookup has no record for an entry, `loadOne` returns the
entry unchanged except for the cleared watch flag. -/
theorem loadOne_none (lookup : String → Option CfgRecord) (p q : Limits)
    (w : Nat) (h : loadOne lookup p = Except.ok (q, w))
    (hn : lookup (nodeKey p) = none) : q = { p with watch := false } := by
  unfold loadOne at h
  rw [hn] at h
  simp only [Except.ok.injEq, Prod.mk.injEq] at h
  exact h.1.symm

/-- C2 (counterexample): the claim "a sample whose raw value is exactly
equal to the configured upper bound or exactly equal to the configured lower
bound yields candidate status OK, not CRIT" is false as stated.  With the
crossed (and explicitly accepted) configuration `lower = 10 > upper = 5`,
the value 5 is exactly equal to the upper bound yet the strict comparison
against the *lower* bound (`5 < 10`) makes the candidate CRIT. -/
theorem bound_equality_crit_when_bounds_crossed :
    crossedLimit.upper = 5 ∧ crossedLimit.lower = 10 ∧
    deriveStatus crossedLimit 5 SensorStatus.unspec = SensorStatus.crit := by
  decide

/-- C2 (amended): for a sensor whose device status is "unspecified" the
candidate is CRIT exactly when `value > upper` or `value < lower` (strict
comparisons), and consequently a value exactly equal to one bound yields OK
provided the bounds are not crossed (`lower ≤ upper`). -/
theorem derive_status_strict_inequality (l : Limits) (v : Int) :
    (deriveStatus l v SensorStatus.unspec = SensorStatus.crit ↔
      (v > l.upper ∨ v < l.lower)) ∧
    (l.lower ≤ l.upper → (v = l.upper ∨ v = l.lower) →
      deriveStatus l v SensorStatus.unspec = SensorStatus.ok) := by
  constructor
  · unfold deriveStatus
    by_cases h : v > l.upper ∨ v < l.lower
    · simp [h]
    · simp [h]
  · intro hle hv
    unfold deriveStatus
    have h : ¬ (v > l.upper ∨ v < l.lower) := by
      rcases hv with rfl | rfl <;> omega
    simp [h]

/-- C2 (witness): at the concrete watched sensor `baseLimit`
(`lower = 1 ≤ upper = 5`), the boundary value 5 yields candidate OK. -/
theorem derive_status_strict_inequality_witness :
    deriveStatus baseLimit 5 SensorStatus.unspec = SensorStatus.ok :=
  (derive_status_strict_inequality baseLimit 5).2 (by decide) (Or.inl rfl)

/-- C3: recovery is never debounced.  From any confirmed non-OK status, a
single watched sample whose derived candidate status is OK immediately sets
`status = status2 = OK` and stamps `status_changed` with the sample time;
no other field besides `last_val` changes (in particular no streak of
matching samples is required). -/
theorem recovery_immediate (l : Limits) (v : Int) (st : SensorStatus)
    (t : Int) (hw : l.watch = true)
    (hcand : deriveStatus { l with last_val := v } v st = SensorStatus.ok)
    (hne : l.status ≠ SensorStatus.ok) :
    checkSensor l v st t =
      { l with last_val := v, status := SensorStatus.ok,
               status2 := SensorStatus.ok, status_changed := t } := by
  unfold checkSensor
  rw [if_pos hw, hcand]
  exact debounce_ok_confirm _ _ hne

/-- C3 (witness): one OK sample at time 42 recovers the confirmed-CRIT
sensor `recoveryStart` immediately. -/
theorem recovery_immediate_witness :
    checkSensor recoveryStart 3 SensorStatus.ok 42 =
      { recoveryStart with last_val := 3, status := SensorStatus.ok,
                           status2 := SensorStatus.ok, status_changed := 42 } :=
  recovery_immediate recoveryStart 3 SensorStatus.ok 42 rfl rfl (by decide)

/-- C7 (counterexample): the claim that `%%` produces a single literal `%`
is false: the `default:` branch of the template switch renders
`snprintf("%%%c", '%')`, i.e. two percent characters. -/
theorem percent_percent_two_chars :
    expand baseLimit (String.mk ['%', '%']) =
      ExpandResult.ok (String.mk ['%', '%']) ∧
    (String.mk ['%', '%']).length = 2 ∧
    String.mk ['%', '%'] ≠ "%" := by
  decide

/-- C7 (amended): both `%%` and an unrecognized placeholder letter such as
`%q` are passed through by the `default:` branch as the two literal
characters `%<char>`; in particular `%%` yields `%%`, not a single `%`. -/
theorem template_literal_passthrough :
    expand baseLimit (String.mk ['%', '%']) =
      ExpandResult.ok (String.mk ['%', '%']) ∧
    expand baseLimit (String.mk ['%', 'q']) =
      ExpandResult.ok (String.mk ['%', 'q']) := by
  decide

/-- C8: the unit round-trip for temperature fails by one centi-degree.
`get_val` converts "25C" with the offset 273.16 to the raw value 298160000
micro-kelvin, but `print_sensor` formats with the offset 273.15, so the
round-trip displays "25.01 degC", not the claimed "25.00 degC". -/
theorem temp_roundtrip_offset_mismatch :
    get_val (some "25C") true SensorType.temp = Except.ok 298160000 ∧
    print_sensor SensorType.temp 298160000 = "25.01 degC" ∧
    "25.01 degC" ≠ "25.00 degC" := by
  decide

/-- C10: for every sensor type (supported for thresholding or not) and both
bound directions, an absent bound string makes `get_val` return the default
(`LLONG_MIN` for a lower bound, `LLONG_MAX` for an upper bound) before any
numeric or unit validation; consequently a watched sensor of any type whose
config record omits both "low" and "high" loads without the fatal
"unsupported sensor type" error, with never-triggering default bounds. -/
theorem absent_bounds_default_no_validation :
    (∀ (ty : SensorType) (u : Bool),
      get_val none u ty = Except.ok (if u then LLONG_MAX else LLONG_MIN)) ∧
    (∀ (p : Limits),
      parse_config (fun _ => some { low := none, high := none, command := none })
          [p] =
        Except.ok ([{ p with watch := true, lower := LLONG_MIN,
                             upper := LLONG_MAX }], 1)) := by
  constructor
  · intro ty u
    cases u <;> rfl
  · intro p
    rfl

/-- C1 (counterexample): the claim that 3 consecutive matching non-OK
samples confirm on exactly the 3rd is false.  From the confirmed-OK,
pending-OK state `baseLimit`, three consecutive CRIT samples leave the
confirmed status OK and the change stamp untouched (still 5): the first
sample only starts the pending streak with `count = 0`, and `++count >= 3`
is first reached on the 4th. -/
theorem check_sensors_third_sample_not_confirmed :
    (checkSensor (checkSensor (checkSensor baseLimit 9 SensorStatus.crit 1)
        9 SensorStatus.crit 2) 9 SensorStatus.crit 3).status = SensorStatus.ok ∧
    (checkSensor (checkSensor (checkSensor baseLimit 9 SensorStatus.crit 1)
        9 SensorStatus.crit 2) 9 SensorStatus.crit 3).status_changed = 5 ∧
    (checkSensor (checkSensor (checkSensor baseLimit 9 SensorStatus.crit 1)
        9 SensorStatus.crit 2) 9 SensorStatus.crit 3).status2 = SensorStatus.crit := by
  decide

/-- C1 (amended): starting from a watched state whose confirmed *and*
pending statuses both differ from the non-OK candidate, consecutive samples
with that candidate status leave the confirmed status unchanged through the
3rd sample and confirm on exactly the 4th (confirmed and pending set to the
candidate, change time stamped with the 4th sample's time): the 1st sample
starts the streak with the counter at 0 and the counter preincrements to 3
on the 4th. -/
theorem check_sensors_escalation_confirms_on_fourth (l : Limits)
    (c : SensorStatus) (v1 v2 v3 v4 t1 t2 t3 t4 : Int)
    (hw : l.watch = true)
    (hc : c = SensorStatus.warn ∨ c = SensorStatus.crit)
    (h1 : l.status ≠ c) (h2 : l.status2 ≠ c) :
    (checkSensor l v1 c t1).status = l.status ∧
    (checkSensor (checkSensor l v1 c t1) v2 c t2).status = l.status ∧
    (checkSensor (checkSensor (checkSensor l v1 c t1) v2 c t2)
        v3 c t3).status = l.status ∧
    (checkSensor (checkSensor (checkSensor (checkSensor l v1 c t1) v2 c t2)
        v3 c t3) v4 c t4).status = c ∧
    (checkSensor (checkSensor (checkSensor (checkSensor l v1 c t1) v2 c t2)
        v3 c t3) v4 c t4).status2 = c ∧
    (checkSensor (checkSensor (checkSensor (checkSensor l v1 c t1) v2 c t2)
        v3 c t3) v4 c t4).status_changed = t4 := by
  have hok : c ≠ SensorStatus.ok := by
    rcases hc with rfl | rfl <;> decide
  have hder : ∀ (m : Limits) (v : Int), deriveStatus m v c = c := by
    rcases hc with rfl | rfl
    · exact fun m v => rfl
    · exact fun m v => rfl
  have e1 : checkSensor l v1 c t1 =
      { l with last_val := v1, status2 := c, count := 0 } := by
    unfold checkSensor
    rw [if_pos hw, hder]
    exact debounce_newstreak _ _ _ h1 hok h2
  have hw1 : ({ l with last_val := v1, status2 := c, count := 0 } : Limits).watch = true := hw
  have h1a : ({ l with last_val := v1, status2 := c, count := 0 } : Limits).status ≠ c := h1
  have e2 : checkSensor { l with last_val := v1, status2 := c, count := 0 } v2 c t2 =
      { l with last_val := v2, status2 := c, count := 1 } := by
    unfold checkSensor
    rw [if_pos hw1, hder]
    exact debounce_repeat_noconfirm _ _ _ h1a hok rfl
      (show (0 : Int) + 1 < 3 by decide)
  have hw2 : ({ l with last_val := v2, status2 := c, count := 1 } : Limits).watch = true := hw
  have h1b : ({ l with last_val := v2, status2 := c, count := 1 } : Limits).status ≠ c := h1
  have e3 : checkSensor { l with last_val := v2, status2 := c, count := 1 } v3 c t3 =
      { l with last_val := v3, status2 := c, count := 2 } := by
    unfold checkSensor
    rw [if_pos hw2, hder]
    exact debounce_repeat_noconfirm _ _ _ h1b hok rfl
      (show (1 : Int) + 1 < 3 by decide)
  have hw3 : ({ l with last_val := v3, status2 := c, count := 2 } : Limits).watch = true := hw
  have h1c : ({ l with last_val := v3, status2 := c, count := 2 } : Limits).status ≠ c := h1
  have e4 : checkSensor { l with last_val := v3, status2 := c, count := 2 } v4 c t4 =
      { l with last_val := v4, status2 := c, count := 3, status := c,
               status_changed := t4 } := by
    unfold checkSensor
    rw [if_pos hw3, hder]
    exact debounce_repeat_confirm _ _ _ h1c hok rfl
      (show (2 : Int) + 1 ≥ 3 by decide)
  rw [e1, e2, e3, e4]
  exact ⟨rfl, rfl, rfl, rfl, rfl, rfl⟩

/-- C1 (witness): instantiating the escalation theorem at `baseLimit` with
CRIT samples at times 11..14: the confirmed status is still OK after the
3rd sample and becomes CRIT on the 4th. -/
theorem check_sensors_escalation_confirms_on_fourth_witness :
    (checkSensor (checkSensor (checkSensor baseLimit 9 SensorStatus.crit 11)
        9 SensorStatus.crit 12) 9 SensorStatus.crit 13).status = SensorStatus.ok ∧
    (checkSensor (checkSensor (checkSensor (checkSensor baseLimit
        9 SensorStatus.crit 11) 9 SensorStatus.crit 12) 9 SensorStatus.crit 13)
        9 SensorStatus.crit 14).status = SensorStatus.crit := by
  have h := check_sensors_escalation_confirms_on_fourth baseLimit
    SensorStatus.crit 9 9 9 9 11 12 13 14 rfl (Or.inr rfl) (by decide) (by decide)
  exact ⟨h.2.2.1, h.2.2.2.1⟩

/-- C4 (counterexample): the claim that a reload hitting a malformed
threshold value is non-fatal is false.  A reload whose config lookup yields
the record `low = "zzz"` for a watched temperature sensor dies inside
`get_val` (the modelled `err(1, "incorrect value: ...")`), instead of
keeping the previous watch list. -/
theorem reload_malformed_value_fatal_example :
    reloadStep (fun _ => some { low := some "zzz", high := none, command := none })
        [baseLimit] =
      ReloadOutcome.fatal "incorrect value: zzz" := by
  decide

/-- C4 (amended): a malformed threshold value is process-fatal during *any*
load, a reload included, for both kinds of malformation: a string on which
`strtod` performs no conversion dies in `err(1, "incorrect value: ...")`,
and a parsed number whose trailing unit suffix is invalid for the sensor
type (not 'C'/'F' for temperature, not 'V' for DC voltage) dies in the
corresponding `errx(1, "unknown unit ...")`.  In every case the reload step
propagates the fatal error rather than retaining the previous watch list
(its non-fatal "error in config file" branch only fires on a `-1` return
that `parse_config` can never produce). -/
theorem reload_malformed_value_fatal (lookup : String → Option CfgRecord)
    (p : Limits) (rest : List Limits) (r : CfgRecord) (s : String)
    (hr : lookup (nodeKey p) = some r) (hlow : r.low = some s) :
    (strtodM s.data = none →
      reloadStep lookup (p :: rest) =
        ReloadOutcome.fatal ("incorrect value: " ++ s)) ∧
    (∀ (vp : Int × Nat × List Char) (c : Char) (cs : List Char),
      p.type = SensorType.temp → strtodM s.data = some vp →
      vp.2.2 = c :: cs → c ≠ 'C' → c ≠ 'F' →
      reloadStep lookup (p :: rest) =
        ReloadOutcome.fatal "unknown unit for temp sensor") ∧
    (∀ (vp : Int × Nat × List Char) (c : Char) (cs : List Char),
      p.type = SensorType.volts_dc → strtodM s.data = some vp →
      vp.2.2 = c :: cs → c ≠ 'V' →
      reloadStep lookup (p :: rest) =
        ReloadOutcome.fatal "unknown unit for voltage sensor") := by
  have key : ∀ (e : String), get_val r.low false p.type = Except.error e →
      reloadStep lookup (p :: rest) = ReloadOutcome.fatal e := by
    intro e hget
    have hload : loadOne lookup p = Except.error e := by
      simp only [loadOne, hr, hget]
    simp only [reloadStep, parse_config, hload]
  refine ⟨fun hbad => key _ ?_,
          fun vp c cs htype hvp hlist hc hf => key _ ?_,
          fun vp c cs htype hvp hlist hv => key _ ?_⟩
  · rw [hlow]
    simp only [get_val, hbad]
  · rw [hlow]
    simp only [get_val, hvp, htype, hlist]
    split
    · simp_all
    · simp_all
    · rfl
  · rw [hlow]
    simp only [get_val, hvp, htype, hlist]
    split
    · simp_all
    · rfl

/-- C4 (witness): the fatal-reload theorem instantiated at `baseLimit` with
the unparseable threshold string "bogus" (err path) and with the threshold
string "25K", whose suffix 'K' is invalid for a temperature sensor
(errx path). -/
theorem reload_malformed_value_fatal_witness :
    reloadStep (fun _ => some badRecord) [baseLimit] =
      ReloadOutcome.fatal ("incorrect value: " ++ "bogus") ∧
    reloadStep (fun _ => some unitRecord) [baseLimit] =
      ReloadOutcome.fatal "unknown unit for temp sensor" :=
  ⟨(reload_malformed_value_fatal (fun _ => some badRecord) baseLimit []
      badRecord "bogus" rfl rfl).1 (by decide),
   (reload_malformed_value_fatal (fun _ => some unitRecord) baseLimit []
      unitRecord "25K" rfl rfl).2.1
      ⟨25, 0, ['K']⟩ 'K' [] rfl (by decide) rfl (by decide) (by decide)⟩

/-- C5 (counterexample): the claim that after a template overflow "the
reporting pass continues to process the remaining sensors' transitions" is
false.  With two pending transitions, the first sensor's overflowing
template makes `report` log the parse failure and `return`: the second
sensor's alert line never appears. -/
theorem template_overflow_stops_report_pass_example :
    report 0 [overflowLimit, fanLimit] =
      [Event.logLine (reportLine overflowLimit), Event.logParseFailure] := by
  decide

/-- C5 (amended): when expanding a sensor's command template would exceed
the output buffer, the whole substitution is aborted and the failure is
reported, and no command (partial or otherwise) is executed for it — but
the reporting pass *stops*: `report` returns on the spot and the remaining
sensors' transitions are not processed in that pass. -/
theorem template_overflow_aborts_and_stops_pass (t : Int) (l : Limits)
    (rest : List Limits) (cmd : String)
    (hnew : t < l.status_changed) (hcmd : l.command = some cmd)
    (hover : expand l cmd = ExpandResult.overflow) :
    report t (l :: rest) =
      [Event.logLine (reportLine l), Event.logParseFailure] := by
  have hn : ¬ l.status_changed ≤ t := by omega
  simp only [report, if_neg hn, hcmd, hover]

/-- C5 (witness): the overflow theorem instantiated at `overflowLimit` and
its 1017-character template. -/
theorem template_overflow_aborts_and_stops_pass_witness :
    report 0 [overflowLimit] =
      [Event.logLine (reportLine overflowLimit), Event.logParseFailure] :=
  template_overflow_aborts_and_stops_pass 0 overflowLimit [] overflowCmd
    (by decide) rfl (by decide)

/-- C6 (counterexample): the claim that a config reload "discards the
WatchState of a sensor that is removed from the config" is false.  Removing
`streakLimit` (pending CRIT streak, `count = 2`) only clears its watch flag:
the reloaded entry still carries `count = 2`, `status2 = CRIT` and the old
change stamp, so the in-progress streak (and the recent-change stamp the
reporter keys on) survives unwatching and resumes if the sensor is
re-added. -/
theorem unwatched_state_retained_example :
    parse_config (fun _ => none) [streakLimit] =
      Except.ok ([{ streakLimit with watch := false }], 0) ∧
    ({ streakLimit with watch := false } : Limits).count = 2 ∧
    ({ streakLimit with watch := false } : Limits).status2 = SensorStatus.crit ∧
    ({ streakLimit with watch := false } : Limits).status_changed = 5 := by
  decide

/-- C6 (amended): a config reload preserves the runtime WatchState fields
(last observed value, confirmed status, pending status, pending streak,
change stamp) of *every* entry, whether it remains configured or not; an
entry whose record disappeared is returned identical except for its cleared
watch flag — its WatchState is retained, not discarded. -/
theorem reload_preserves_state_clears_watch_only
    (lookup : String → Option CfgRecord) (ls ls' : List Limits) (cnt : Nat)
    (h : parse_config lookup ls = Except.ok (ls', cnt)) :
    List.Forall₂ (fun p q => sameState p q ∧
      (lookup (nodeKey p) = none → q = { p with watch := false })) ls ls' := by
  induction ls generalizing ls' cnt with
  | nil =>
      unfold parse_config at h
      simp only [Except.ok.injEq, Prod.mk.injEq] at h
      obtain ⟨h1, h2⟩ := h
      subst h1
      exact List.Forall₂.nil
  | cons p rest ih =>
      unfold parse_config at h
      cases hq : loadOne lookup p with
      | error e => rw [hq] at h; simp at h
      | ok qw =>
        rw [hq] at h
        cases hr : parse_config lookup rest with
        | error e => rw [hr] at h; simp at h
        | ok rc =>
          rw [hr] at h
          simp only [Except.ok.injEq, Prod.mk.injEq] at h
          obtain ⟨h1, h2⟩ := h
          subst h1
          exact List.Forall₂.cons
            ⟨loadOne_state lookup p qw.1 qw.2 hq,
             fun hn => loadOne_none lookup p qw.1 qw.2 hq hn⟩
            (ih rc.1 rc.2 hr)

/-- C6 (witness): the preservation theorem instantiated at a reload that
removes `streakLimit`: the surviving entry pairs with the original under
the state-preservation relation and equals it up to the cleared watch
flag. -/
theorem reload_preserves_state_clears_watch_only_witness :
    List.Forall₂ (fun p q => sameState p q ∧
      ((none : Option CfgRecord) = none → q = { p with watch := false }))
      [streakLimit] [{ streakLimit with watch := false }] :=
  reload_preserves_state_clears_watch_only (fun _ => none) [streakLimit]
    [{ streakLimit with watch := false }] 0 rfl

/-- C9 (counterexample): the claim that no Reporter pass ever emits a log
line or runs a command for a disabled sensor is false.  `report` never
checks the watch flag: the disabled `unwatchedCmdLimit`, whose (stale)
change stamp is newer than the previous report, gets an alert line and its
command executed. -/
theorem report_unwatched_sensor_example :
    unwatchedCmdLimit.watch = false ∧
    report 0 [unwatchedCmdLimit] =
      [Event.logLine (reportLine unwatchedCmdLimit),
       Event.execCmd "echo ALERT"] := by
  decide

/-- C9 (amended): a sensor with the watch flag disabled is never touched by
the sampling pass (its entry, confirmed and pending status included, is
returned unchanged), but the Reporter does *not* filter on the watch flag:
it emits the alert line for any entry — disabled or not — whose change
stamp is newer than the previous report. -/
theorem unwatched_no_transition_report_unfiltered (l : Limits) (v : Int)
    (st : SensorStatus) (t tr : Int) (rest : List Limits)
    (hw : l.watch = false) :
    checkSensor l v st t = l ∧
    (l.command = none → tr < l.status_changed →
      report tr (l :: rest) =
        Event.logLine (reportLine l) :: report tr rest) := by
  constructor
  · unfold checkSensor
    rw [if_neg (by simp [hw])]
  · intro hc hlt
    have hn : ¬ l.status_changed ≤ tr := by omega
    simp only [report, if_neg hn, hc]

/-- C9 (witness): the theorem instantiated at the disabled sensor
`unwatchedLimit`: a CRIT sample leaves it unchanged, yet the report pass
still logs it. -/
theorem unwatched_no_transition_report_unfiltered_witness :
    checkSensor unwatchedLimit 9 SensorStatus.crit 7 = unwatchedLimit ∧
    report 0 [unwatchedLimit] = [Event.logLine (reportLine unwatchedLimit)] := by
  have h := unwatched_no_transition_report_unfiltered unwatchedLimit 9
    SensorStatus.crit 7 0 [] rfl
  exact ⟨h.1, h.2 rfl (by decide)⟩
